import Mathlib

/-!
Shallow embedding of the Axcelerate API client
(`src/services/axcelerate.py` of the fia-mcp-server repository).

Python dictionaries parsed from JSON responses are modelled as association
lists with string keys; Python values as the inductive `PyVal`.  Each client
method is split into two pure functions mirroring the source:

* a parameter builder (the `params = {...}` dictionary the method passes to
  `requests`), and
* a response processor, a function of an `HttpOutcome` that models the body
  of the method's `try:` block together with its `except` handlers.
  A caught exception class (`requests.RequestException`) corresponds to the
  `HttpOutcome.transportError` constructor; an exception raised *inside* the
  block by Python semantics (TypeError on iterating a non-iterable,
  AttributeError on `.get` of a non-dict, ValueError/TypeError from `int()`)
  is modelled by the `Except String` error monad, so an `Except.error` result
  is an exception that the method propagates uncaught to its caller.
-/

namespace Axcelerate

/-- A Python/JSON value as produced by `response.json()`:
`None`, `bool`, `int`, `str`, `list` or `dict` (association list keyed by
strings, keys unique as in a Python dict). -/
inductive PyVal where
  | none
  | bool (b : Bool)
  | int (n : Int)
  | str (s : String)
  | list (xs : List PyVal)
  | dict (kvs : List (String × PyVal))

/-- Whether a value is Python `None`. -/
def PyVal.isNone : PyVal → Bool
  | .none => true
  | _ => false

/-- Whether a value is a Python dict. -/
def PyVal.isDict : PyVal → Bool
  | .dict _ => true
  | _ => false

/-- Python `d.get(k, default)` on a dict modelled as an association list:
the value at the first matching key, else the default. -/
def dGetD (kvs : List (String × PyVal)) (k : String) (d : PyVal) : PyVal :=
  match kvs.find? (fun p => p.1 == k) with
  | some p => p.2
  | Option.none => d

/-- Python `d.get(k)`: absent keys yield `None`. -/
def dGet (kvs : List (String × PyVal)) (k : String) : PyVal :=
  dGetD kvs k .none

/-- Digit characters used by decimal rendering. -/
def digitChar (n : Nat) : Char :=
  match n with
  | 0 => '0' | 1 => '1' | 2 => '2' | 3 => '3' | 4 => '4'
  | 5 => '5' | 6 => '6' | 7 => '7' | 8 => '8' | _ => '9'

/-- Accumulating decimal-digit parser for the body of a Python integer
literal: returns the value when every character is a digit and at least one
digit was seen, else `Option.none`. -/
def parseDigits : List Char → Option Nat → Option Nat
  | [], acc => acc
  | c :: cs, acc =>
      if c.isDigit then parseDigits cs (some ((acc.getD 0) * 10 + (c.toNat - 48)))
      else Option.none

/-- Python `int(s)` on a string: an optional sign followed by decimal digits.
(Python additionally strips surrounding whitespace and allows grouping
underscores; those inputs do not arise in the claims and are treated as
failing here.) -/
def parsePyIntStr (s : String) : Option Int :=
  match s.data with
  | '-' :: cs => (parseDigits cs Option.none).map (fun n => -(n : Int))
  | '+' :: cs => (parseDigits cs Option.none).map (fun n => (n : Int))
  | cs => (parseDigits cs Option.none).map (fun n => (n : Int))

/-- Python `int(v)` coercion: ints pass through, bools map to 0/1, strings
are parsed, everything else raises `TypeError`; unparsable strings raise
`ValueError`. -/
def pyInt : PyVal → Except String Int
  | .int n => .ok n
  | .bool b => .ok (if b then 1 else 0)
  | .str s =>
      match parsePyIntStr s with
      | some n => .ok n
      | Option.none => .error ("ValueError: invalid literal for int(): " ++ s)
  | .none => .error "TypeError: int() argument is None"
  | .list _ => .error "TypeError: int() argument is a list"
  | .dict _ => .error "TypeError: int() argument is a dict"

/-- Python `for x in v`: lists yield their items, dicts their keys, strings
their characters; any other value raises `TypeError`. -/
def pyIter : PyVal → Except String (List PyVal)
  | .list xs => .ok xs
  | .dict kvs => .ok (kvs.map (fun p => PyVal.str p.1))
  | .str s => .ok (s.data.map (fun c => PyVal.str (String.mk [c])))
  | _ => .error "TypeError: object is not iterable"

/-- The outcome of one `requests.get`/`requests.post` call followed by
`raise_for_status()` and `.json()`: either an exception of a class the
method catches (connection error, timeout, non-2xx status), carrying
`str(e)`, or a successfully parsed body. -/
inductive HttpOutcome where
  | transportError (msg : String)
  | success (body : PyVal)

/-- The normalized contact record `search_users` builds from one response
item (a dict): each output field is `item.get(KEY)`. -/
def userRowOf (kvs : List (String × PyVal)) : PyVal :=
  .dict
    [("contact_id", dGet kvs "CONTACTID"),
     ("user_id", dGet kvs "USERID"),
     ("given_name", dGet kvs "GIVENNAME"),
     ("surname", dGet kvs "SURNAME"),
     ("email", dGet kvs "EMAILADDRESS"),
     ("alt_email", dGet kvs "EMAILADDRESSALTERNATIVE"),
     ("sex", dGet kvs "SEX"),
     ("mobile", dGet kvs "MOBILEPHONE"),
     ("work_phone", dGet kvs "WORKPHONE"),
     ("organisation", dGet kvs "ORGANISATION"),
     ("position", dGet kvs "POSITION"),
     ("active", dGet kvs "CONTACTACTIVE")]

/-- One iteration of the `search_users` loop: `if not isinstance(user, dict):
continue` skips non-dicts, a dict is mapped to the normalized record. -/
def mapUser : PyVal → Option PyVal
  | .dict kvs => some (userRowOf kvs)
  | _ => Option.none

/-- `search_users` response processing: the body of the `try:` block from
`response.json()` on, with the `except requests.RequestException` handler
returning `[]`. -/
def search_users : HttpOutcome → Except String (List PyVal)
  | .transportError _ => .ok []
  | .success body =>
      match pyIter body with
      | .error m => .error m
      | .ok users => .ok (users.filterMap mapUser)

/-- The normalized course record `get_courses` and `get_recorded_webinars`
build from one response item via `course.get(KEY)`. -/
def courseRowOf (kvs : List (String × PyVal)) : PyVal :=
  .dict
    [("ID", dGet kvs "ID"),
     ("NAME", dGet kvs "NAME"),
     ("STREAMNAME", dGet kvs "STREAMNAME"),
     ("DIPLOMAVERSION", dGet kvs "DIPLOMAVERSION"),
     ("CODE", dGet kvs "CODE"),
     ("GST_TYPE", dGet kvs "GST_TYPE"),
     ("COST", dGet kvs "COST"),
     ("DELIVERY", dGet kvs "DELIVERY"),
     ("DURATION", dGet kvs "DURATION"),
     ("DURATIONTYPE", dGet kvs "DURATIONTYPE"),
     ("ISACTIVE", dGet kvs "ISACTIVE"),
     ("TYPE", dGet kvs "TYPE"),
     ("SHORTDESCRIPTION", dGet kvs "SHORTDESCRIPTION")]

/-- One iteration of the `get_courses` loop: `course.get(...)` on a dict
builds the record; on any non-dict it raises `AttributeError` (there is no
`isinstance` guard in this loop). -/
def mapCourse : PyVal → Except String PyVal
  | .dict kvs => .ok (courseRowOf kvs)
  | _ => .error "AttributeError: no attribute get"

/-- A Python `for` loop that appends `f item` for each item in order and
propagates the first exception `f` raises. -/
def mapLoop (f : PyVal → Except String PyVal) : List PyVal → Except String (List PyVal)
  | [] => .ok []
  | x :: xs =>
      match f x with
      | .error m => .error m
      | .ok r =>
          match mapLoop f xs with
          | .error m => .error m
          | .ok rest => .ok (r :: rest)

/-- `get_courses` response processing: maps every response item with
`mapCourse`; only `requests.RequestException` is caught (yielding `[]`), so
an exception from the loop propagates. -/
def get_courses : HttpOutcome → Except String (List PyVal)
  | .transportError _ => .ok []
  | .success body =>
      match pyIter body with
      | .error m => .error m
      | .ok courses => mapLoop mapCourse courses

/-- `get_course_instance` response processing: returns `response.json()`
unmodified; `[]` on a caught transport error. -/
def get_course_instance : HttpOutcome → PyVal
  | .transportError _ => .list []
  | .success body => body

/-- The in-band error marker `get_recorded_webinars` returns on any
exception `e`: `{"error": True, "message": f"Unexpected error: {str(e)}"}`. -/
def errorMarker (msg : String) : PyVal :=
  .dict [("error", .bool true), ("message", .str ("Unexpected error: " ++ msg))]

/-- The whole `try:` block of `get_recorded_webinars` as a fallible
computation: a transport error is an exception like any other here, since
the handler catches bare `Exception`. -/
def webinarsTry : HttpOutcome → Except String (List PyVal)
  | .transportError msg => .error msg
  | .success body =>
      match pyIter body with
      | .error m => .error m
      | .ok webinars => mapLoop mapCourse webinars

/-- `get_recorded_webinars`: the result of the `try:` block, with `except
Exception as e` converting any exception into the single-element marker
list. -/
def get_recorded_webinars (o : HttpOutcome) : List PyVal :=
  match webinarsTry o with
  | .ok rows => rows
  | .error msg => [errorMarker msg]

/-- `search_courses` response processing: a dict body yields
`data.get("data", [])`, a list body is returned as is, anything else yields
`[]`; a caught transport error yields `[]`. -/
def search_courses : HttpOutcome → PyVal
  | .transportError _ => .list []
  | .success body =>
      match body with
      | .dict kvs => dGetD kvs "data" (.list [])
      | .list xs => .list xs
      | _ => .list []

/-- The dual-shape normalisation shared by the two enrolment methods:
`payload` if it is a list, `payload.get("data", [])` if it is a dict, `[]`
otherwise. -/
def enrolBody : PyVal → PyVal
  | .list xs => .list xs
  | .dict kvs => dGetD kvs "data" (.list [])
  | _ => .list []

/-- The simplified learner-enrolment record `get_student_enrollments` builds
from one kept response row. -/
def studentRowOf (kvs : List (String × PyVal)) : PyVal :=
  .dict
    [("instance_id", dGet kvs "INSTANCEID"),
     ("enrol_id", dGet kvs "ENROLID"),
     ("learner_id", dGet kvs "LEARNERID"),
     ("contact_id", dGet kvs "CONTACTID"),
     ("name", dGet kvs "NAME"),
     ("code", dGet kvs "CODE"),
     ("status", dGet kvs "STATUS"),
     ("type", dGet kvs "TYPE"),
     ("enrolment_date", dGet kvs "ENROLMENTDATE"),
     ("start_date", dGet kvs "STARTDATE"),
     ("finish_date", dGet kvs "FINISHDATE")]

/-- One iteration of the `get_student_enrollments` loop:
`if int(e.get("CONTACTID", -1)) != contactID: continue`, then append the
simplified record.  `e.get` on a non-dict raises `AttributeError`; a failing
`int()` coercion raises and is not caught by the method. -/
def studentRow (contactID : Int) : PyVal → Except String (Option PyVal)
  | .dict kvs =>
      match pyInt (dGetD kvs "CONTACTID" (.int (-1))) with
      | .error m => .error m
      | .ok cid =>
          if cid ≠ contactID then .ok Option.none
          else .ok (some (studentRowOf kvs))
  | _ => .error "AttributeError: no attribute get"

/-- A Python `for` loop that appends the mapped row when `f` keeps the item,
skips it when `f` rejects it, and propagates the first exception. -/
def filterLoop (f : PyVal → Except String (Option PyVal)) :
    List PyVal → Except String (List PyVal)
  | [] => .ok []
  | x :: xs =>
      match f x with
      | .error m => .error m
      | .ok r =>
          match filterLoop f xs with
          | .error m => .error m
          | .ok rest =>
              match r with
              | some row => .ok (row :: rest)
              | Option.none => .ok rest

/-- The structure returned by `get_student_enrollments`. -/
structure EnrolStatus where
  enrolled : Bool
  courses : List PyVal

/-- `get_student_enrollments` response processing: dual-shape body
normalisation, defensive filtering by coerced contact id, and the
`{"enrolled": len(courses) > 0, "courses": courses}` result; a caught
transport error yields `{"enrolled": False, "courses": []}`. -/
def get_student_enrollments (contactID : Int) :
    HttpOutcome → Except String EnrolStatus
  | .transportError _ => .ok ⟨false, []⟩
  | .success body =>
      match pyIter (enrolBody body) with
      | .error m => .error m
      | .ok items =>
          match filterLoop (studentRow contactID) items with
          | .error m => .error m
          | .ok courses => .ok ⟨decide (0 < courses.length), courses⟩

/-- The simplified roster record `get_course_enrolments` builds from one
kept response row. -/
def enrolmentRowOf (kvs : List (String × PyVal)) : PyVal :=
  .dict
    [("contact_id", dGet kvs "CONTACTID"),
     ("given_name", dGet kvs "GIVENNAME"),
     ("surname", dGet kvs "SURNAME"),
     ("email", dGet kvs "EMAIL"),
     ("status", dGet kvs "STATUS"),
     ("enrolment_date", dGet kvs "ENROLMENTDATE"),
     ("finish_date", dGet kvs "FINISHDATE"),
     ("instance_id", dGet kvs "INSTANCEID"),
     ("code", dGet kvs "CODE"),
     ("enrol_id", dGet kvs "ENROLID"),
     ("learner_id", dGet kvs "LEARNERID")]

/-- One iteration of the `get_course_enrolments` loop:
`if int(e.get("INSTANCEID", -1)) != instanceID: continue`, then append. -/
def enrolmentRow (instanceID : Int) : PyVal → Except String (Option PyVal)
  | .dict kvs =>
      match pyInt (dGetD kvs "INSTANCEID" (.int (-1))) with
      | .error m => .error m
      | .ok iid =>
          if iid ≠ instanceID then .ok Option.none
          else .ok (some (enrolmentRowOf kvs))
  | _ => .error "AttributeError: no attribute get"

/-- `get_course_enrolments` response processing: dual-shape body
normalisation and defensive filtering by coerced instance id; `[]` on a
caught transport error. -/
def get_course_enrolments (instanceID : Int) :
    HttpOutcome → Except String (List PyVal)
  | .transportError _ => .ok []
  | .success body =>
      match pyIter (enrolBody body) with
      | .error m => .error m
      | .ok items => filterLoop (enrolmentRow instanceID) items

/-- Field access on a produced record (all records built above are dicts). -/
def rowField : PyVal → String → PyVal
  | .dict kvs, k => dGet kvs k
  | _, _ => .none

/-- Whether `int(v) == X` succeeds under Python coercion. -/
def coercesTo (X : Int) (v : PyVal) : Bool :=
  match pyInt v with
  | .ok n => n == X
  | .error _ => false

/-- The id-match invariant a kept row's raw id field satisfies: a `None`
field (absent key in the source row) matched through the `-1` default, any
other value matched through `int()` coercion. -/
def rowIdMatches (X : Int) (v : PyVal) : Bool :=
  if v.isNone then X == -1 else coercesTo X v

/-- A body that is neither a list nor a dict. -/
def isScalar : PyVal → Bool
  | .list _ => false
  | .dict _ => false
  | _ => true

/-! ### Outgoing request parameters

The `params = {...}` dictionaries the methods hand to `requests` are
modelled as association lists whose values are `PyVal.none` when the caller
omitted the argument.  `requests` drops `None`-valued parameters when
building the query string, so the parameters actually sent are
`sentParams`. -/

/-- An optional integer argument as a parameter value. -/
def oInt : Option Int → PyVal
  | some n => .int n
  | Option.none => .none

/-- An optional string argument as a parameter value. -/
def oStr : Option String → PyVal
  | some s => .str s
  | Option.none => .none

/-- An optional boolean argument as a parameter value. -/
def oBool : Option Bool → PyVal
  | some b => .bool b
  | Option.none => .none

/-- A Python `datetime.date`.  Python validates `1 <= year <= 9999`,
`1 <= month <= 12` and a day valid for the month at construction; the
claims only use the value through `isoformat`. -/
structure PyDate where
  year : Nat
  month : Nat
  day : Nat

/-- A Python `datetime.datetime` (microseconds omitted: `isoformat` only
appends them when nonzero). -/
structure PyDateTime where
  year : Nat
  month : Nat
  day : Nat
  hour : Nat
  minute : Nat
  second : Nat

/-- Two-digit zero-padded decimal rendering (`%02d` for values below 100,
the whole domain of the date/time components it is applied to). -/
def pad2 (n : Nat) : String :=
  String.mk [digitChar (n / 10 % 10), digitChar (n % 10)]

/-- Four-digit zero-padded decimal rendering (`%04d` for values below
10000, the whole domain of Python years). -/
def pad4 (n : Nat) : String :=
  String.mk [digitChar (n / 1000 % 10), digitChar (n / 100 % 10),
             digitChar (n / 10 % 10), digitChar (n % 10)]

/-- Python `date.isoformat()`: `YYYY-MM-DD`. -/
def PyDate.isoformat (d : PyDate) : String :=
  pad4 d.year ++ "-" ++ pad2 d.month ++ "-" ++ pad2 d.day

/-- Python `datetime.isoformat()` with zero microseconds:
`YYYY-MM-DDTHH:MM:SS`. -/
def PyDateTime.isoformat (t : PyDateTime) : String :=
  pad4 t.year ++ "-" ++ pad2 t.month ++ "-" ++ pad2 t.day ++ "T" ++
    pad2 t.hour ++ ":" ++ pad2 t.minute ++ ":" ++ pad2 t.second

/-- `x.isoformat() if x else None` for a date argument (a `date` object is
always truthy). -/
def oDate : Option PyDate → PyVal
  | some d => .str d.isoformat
  | Option.none => .none

/-- `x.isoformat() if x else None` for a datetime argument. -/
def oDateTime : Option PyDateTime → PyVal
  | some t => .str t.isoformat
  | Option.none => .none

/-- The `params` dictionary built by `get_courses`: note the fixed
`trainingArea` entry. -/
def get_courses_params (id : Option Int) (search_term : Option String)
    (type : Option String) (offset : Option Int) (display_length : Option Int)
    (sort_column : Option String) (sort_direction : Option String)
    (current : Option Bool) (public : Option Bool) (isActive : Option Bool) :
    List (String × PyVal) :=
  [("id", oInt id),
   ("searchTerm", oStr search_term),
   ("type", oStr type),
   ("trainingArea", .str "FIA Courses"),
   ("offset", oInt offset),
   ("displayLength", oInt display_length),
   ("sortColumn", oStr sort_column),
   ("sortDirection", oStr sort_direction),
   ("current", oBool current),
   ("public", oBool public),
   ("isActive", oBool isActive)]

/-- The `params` dictionary built by `search_courses`. -/
def search_courses_params (id : Option Int) (instance_id : Option Int)
    (type : Option String) (training_category : Option String)
    (location : Option String) (state : Option String) (code : Option String)
    (name : Option String) (search_term : Option String)
    (enrolment_open : Option Bool)
    (startDate_min : Option PyDate) (startDate_max : Option PyDate)
    (finishDate_min : Option PyDate) (finishDate_max : Option PyDate)
    (lastUpdated_min : Option PyDateTime) (lastUpdated_max : Option PyDateTime)
    (offset : Option Int) (display_length : Option Int)
    (sort_column : Option String) (sort_direction : Option String)
    (public : Option Bool) (isActive : Option Bool) (status : Option String) :
    List (String × PyVal) :=
  [("id", oInt id),
   ("instanceID", oInt instance_id),
   ("type", oStr type),
   ("trainingCategory", oStr training_category),
   ("location", oStr location),
   ("state", oStr state),
   ("code", oStr code),
   ("name", oStr name),
   ("searchTerm", oStr search_term),
   ("enrolmentOpen", oBool enrolment_open),
   ("startDate_min", oDate startDate_min),
   ("startDate_max", oDate startDate_max),
   ("finishDate_min", oDate finishDate_min),
   ("finishDate_max", oDate finishDate_max),
   ("lastUpdated_min", oDateTime lastUpdated_min),
   ("lastUpdated_max", oDateTime lastUpdated_max),
   ("offset", oInt offset),
   ("displayLength", oInt display_length),
   ("sortColumn", oStr sort_column),
   ("sortDirection", oStr sort_direction),
   ("public", oBool public),
   ("isActive", oBool isActive),
   ("status", oStr status)]

/-- The parameters `requests` actually serializes into the outgoing
request: entries whose value is `None` are dropped. -/
def sentParams (ps : List (String × PyVal)) : List (String × PyVal) :=
  ps.filter (fun p => !p.2.isNone)

/-- First value bound to a key in a parameter list. -/
def lookupParam (ps : List (String × PyVal)) (k : String) : Option PyVal :=
  (ps.find? (fun p => p.1 == k)).map (fun p => p.2)

/-- The value a key carries in the outgoing request built from `ps`:
`Option.none` when the key is absent from the request. -/
def sentLookup (ps : List (String × PyVal)) (k : String) : Option PyVal :=
  lookupParam (sentParams ps) k

/-- Decimal digit test on characters. -/
def isDigitCh (c : Char) : Bool :=
  decide (48 ≤ c.toNat) && decide (c.toNat ≤ 57)

/-- Shape test for an ISO-8601 calendar date `YYYY-MM-DD`. -/
def isISO8601Date (s : String) : Bool :=
  match s.data with
  | [y1, y2, y3, y4, h1, m1, m2, h2, d1, d2] =>
      isDigitCh y1 && isDigitCh y2 && isDigitCh y3 && isDigitCh y4 &&
      (h1 == '-') && isDigitCh m1 && isDigitCh m2 && (h2 == '-') &&
      isDigitCh d1 && isDigitCh d2
  | _ => false

/-- Shape test for an ISO-8601 date-time `YYYY-MM-DDTHH:MM:SS`. -/
def isISO8601DateTime (s : String) : Bool :=
  match s.data with
  | [y1, y2, y3, y4, a, m1, m2, b, d1, d2, t, h1, h2, c, n1, n2, e, s1, s2] =>
      isDigitCh y1 && isDigitCh y2 && isDigitCh y3 && isDigitCh y4 &&
      (a == '-') && isDigitCh m1 && isDigitCh m2 && (b == '-') &&
      isDigitCh d1 && isDigitCh d2 && (t == 'T') &&
      isDigitCh h1 && isDigitCh h2 && (c == ':') &&
      isDigitCh n1 && isDigitCh n2 && (e == ':') &&
      isDigitCh s1 && isDigitCh s2
  | _ => false

/-! ### Helper lemmas -/

/-- `digitChar` always yields a decimal digit character. -/
theorem isDigitCh_digitChar (n : Nat) : isDigitCh (digitChar n) = true := by
  unfold digitChar
  split <;> decide

/-- `pad2` renders as two digit characters. -/
theorem pad2_data (n : Nat) :
    (pad2 n).data = [digitChar (n / 10 % 10), digitChar (n % 10)] := rfl

/-- `pad4` renders as four digit characters. -/
theorem pad4_data (n : Nat) :
    (pad4 n).data = [digitChar (n / 1000 % 10), digitChar (n / 100 % 10),
      digitChar (n / 10 % 10), digitChar (n % 10)] := rfl

/-- `date.isoformat()` output always has the ISO-8601 `YYYY-MM-DD` shape. -/
theorem isISO8601Date_isoformat (d : PyDate) :
    isISO8601Date d.isoformat = true := by
  unfold isISO8601Date PyDate.isoformat
  simp [String.data_append, pad2_data, pad4_data, isDigitCh_digitChar]

/-- `datetime.isoformat()` output always has the ISO-8601
`YYYY-MM-DDTHH:MM:SS` shape. -/
theorem isISO8601DateTime_isoformat (t : PyDateTime) :
    isISO8601DateTime t.isoformat = true := by
  unfold isISO8601DateTime PyDateTime.isoformat
  simp [String.data_append, pad2_data, pad4_data, isDigitCh_digitChar]

/-- Nothing is sent for an empty parameter dictionary. -/
theorem sentLookup_nil (k : String) : sentLookup [] k = Option.none := rfl

/-- Unfolding step for `sentLookup`: a `None`-valued head entry is dropped,
any other head entry is consulted before the tail. -/
theorem sentLookup_cons (k' : String) (v : PyVal) (ps : List (String × PyVal))
    (k : String) :
    sentLookup ((k', v) :: ps) k =
      if v.isNone then sentLookup ps k
      else if k' == k then some v else sentLookup ps k := by
  unfold sentLookup sentParams lookupParam
  by_cases hv : v.isNone = true
  · simp [List.filter_cons, hv]
  · simp only [Bool.not_eq_true] at hv
    by_cases hk : (k' == k) = true
    · simp [List.filter_cons, hv, List.find?_cons, hk]
    · simp [List.filter_cons, hv, List.find?_cons, hk]

/-- A successful `mapLoop` run maps each item in order; with `toOption`
this is exactly a `filterMap` of the input list. -/
theorem mapLoop_ok (f : PyVal → Except String PyVal) (xs : List PyVal) :
    ∀ rows, mapLoop f xs = .ok rows →
      rows = xs.filterMap (fun x => (f x).toOption) := by
  induction xs with
  | nil =>
      intro rows h
      simp only [mapLoop] at h
      cases h
      simp
  | cons x xs ih =>
      intro rows h
      simp only [mapLoop] at h
      cases hf : f x with
      | error m => rw [hf] at h; simp at h
      | ok r =>
          rw [hf] at h
          cases hl : mapLoop f xs with
          | error m => rw [hl] at h; simp at h
          | ok rest =>
              rw [hl] at h
              have h2 : r :: rest = rows := by simpa using h
              subst h2
              simp [List.filterMap_cons, hf, Except.toOption, ih rest hl]

/-- A successful `filterLoop` run keeps, in order, exactly the items the
row function keeps: a `filterMap` of the input list. -/
theorem filterLoop_ok (f : PyVal → Except String (Option PyVal))
    (xs : List PyVal) :
    ∀ rows, filterLoop f xs = .ok rows →
      rows = xs.filterMap (fun x => ((f x).toOption).join) := by
  induction xs with
  | nil =>
      intro rows h
      simp only [filterLoop] at h
      cases h
      simp
  | cons x xs ih =>
      intro rows h
      simp only [filterLoop] at h
      cases hf : f x with
      | error m => rw [hf] at h; simp at h
      | ok r =>
          rw [hf] at h
          cases hl : filterLoop f xs with
          | error m => rw [hl] at h; simp at h
          | ok rest =>
              rw [hl] at h
              cases r with
              | none =>
                  have h2 : rest = rows := by simpa using h
                  subst h2
                  simp [List.filterMap_cons, hf, Except.toOption, Option.join,
                    ih rest hl]
              | some row =>
                  have h2 : row :: rest = rows := by simpa using h
                  subst h2
                  simp [List.filterMap_cons, hf, Except.toOption, Option.join,
                    ih rest hl]

/-- Every row of a successful `filterLoop` run comes from an input item the
row function kept. -/
theorem filterLoop_mem (f : PyVal → Except String (Option PyVal))
    (xs : List PyVal) (rows : List PyVal) (h : filterLoop f xs = .ok rows) :
    ∀ row ∈ rows, ∃ x ∈ xs, f x = .ok (some row) := by
  intro row hrow
  rw [filterLoop_ok f xs rows h] at hrow
  rcases List.mem_filterMap.mp hrow with ⟨x, hx, hfx⟩
  refine ⟨x, hx, ?_⟩
  cases hf : f x with
  | error m => rw [hf] at hfx; simp [Except.toOption, Option.join] at hfx
  | ok r =>
      rw [hf] at hfx
      cases r with
      | none => simp [Except.toOption, Option.join] at hfx
      | some row2 =>
          simp [Except.toOption, Option.join] at hfx
          rw [hfx]

/-! ### Claim theorems -/

/-- C6: for `search_courses`, `get_student_enrollments` and
`get_course_enrolments`, processing a response body shaped `{"data": L}`
yields exactly the same result as processing the bare list `L`. -/
theorem data_wrapper_equiv (L : List PyVal) :
    search_courses (.success (.dict [("data", .list L)])) =
      search_courses (.success (.list L)) ∧
    (∀ X : Int, get_student_enrollments X (.success (.dict [("data", .list L)])) =
      get_student_enrollments X (.success (.list L))) ∧
    (∀ Y : Int, get_course_enrolments Y (.success (.dict [("data", .list L)])) =
      get_course_enrolments Y (.success (.list L))) :=
  ⟨rfl, fun _ => rfl, fun _ => rfl⟩

/-- C7: whatever exception is raised inside `get_recorded_webinars` — a
transport error or an unexpected one such as a parsing exception — the
method returns the single-element list holding exactly the marker object
`{"error": True, "message": "Unexpected error: <description>"}`. -/
theorem recordedWebinars_error_marker (o : HttpOutcome) (m : String)
    (h : webinarsTry o = .error m) :
    get_recorded_webinars o =
      [.dict [("error", .bool true),
              ("message", .str ("Unexpected error: " ++ m))]] := by
  simp [get_recorded_webinars, h, errorMarker]

/-- C7 witness: a body that raises an unexpected (non-transport) exception
while being processed yields exactly the marker list. -/
theorem recordedWebinars_error_marker_witness :
    webinarsTry (.success (.int 3)) = .error "TypeError: object is not iterable" ∧
    get_recorded_webinars (.success (.int 3)) =
      [.dict [("error", .bool true),
              ("message", .str ("Unexpected error: TypeError: object is not iterable"))]] :=
  ⟨rfl, recordedWebinars_error_marker (.success (.int 3))
    "TypeError: object is not iterable" rfl⟩

/-- C8: whatever the caller passes to `get_courses`, the outgoing request
carries the fixed parameter `trainingArea = "FIA Courses"`. -/
theorem getCourses_trainingArea_fixed (id : Option Int)
    (search_term : Option String) (type : Option String) (offset : Option Int)
    (display_length : Option Int) (sort_column : Option String)
    (sort_direction : Option String) (current : Option Bool)
    (public : Option Bool) (isActive : Option Bool) :
    sentLookup
      (get_courses_params id search_term type offset display_length
        sort_column sort_direction current public isActive)
      "trainingArea" = some (.str "FIA Courses") := by
  simp [get_courses_params, sentLookup_cons, sentLookup_nil, PyVal.isNone]

/-- C1 counterexample: the claim says every mapping operation silently
skips a response item that is not a dict, never raising; but `get_courses`
on the response list `[1]` raises an uncaught `AttributeError` (its loop has
no `isinstance` guard), so the operation aborts instead of skipping. -/
theorem getCourses_raises_on_non_dict_item :
    get_courses (.success (.list [.int 1])) =
      .error "AttributeError: no attribute get" := rfl

/-- C1 (amended): every mapping operation renders absent keys of a dict item
as an explicit `None` field and never fails on a dict item with missing
keys; `search_users` silently skips non-dict items and never raises on a
list body; but the other operations do not skip a non-dict item:
`get_courses`, `get_student_enrollments` and `get_course_enrolments` raise
an uncaught `AttributeError` on it, and `get_recorded_webinars` converts the
exception into its error-marker result. -/
theorem mapping_absent_keys_amended :
    (∀ xs : List PyVal,
        search_users (.success (.list xs)) = .ok (xs.filterMap mapUser)) ∧
    (∀ v : PyVal, v.isDict = false → mapUser v = Option.none) ∧
    (∀ kvs : List (String × PyVal), mapUser (.dict kvs) = some (userRowOf kvs)) ∧
    (∀ kvs : List (String × PyVal),
        kvs.find? (fun p => p.1 == "EMAILADDRESS") = Option.none →
        rowField (userRowOf kvs) "email" = PyVal.none) ∧
    (∀ kvs : List (String × PyVal), mapCourse (.dict kvs) = .ok (courseRowOf kvs)) ∧
    (∀ kvs : List (String × PyVal),
        kvs.find? (fun p => p.1 == "NAME") = Option.none →
        rowField (courseRowOf kvs) "NAME" = PyVal.none) ∧
    (∀ v : PyVal, v.isDict = false →
        mapCourse v = .error "AttributeError: no attribute get") ∧
    (∀ (X : Int) (v : PyVal), v.isDict = false →
        studentRow X v = .error "AttributeError: no attribute get") ∧
    (∀ (Y : Int) (v : PyVal), v.isDict = false →
        enrolmentRow Y v = .error "AttributeError: no attribute get") ∧
    (∀ (xs : List PyVal) (m : String), mapLoop mapCourse xs = .error m →
        get_recorded_webinars (.success (.list xs)) = [errorMarker m]) := by
  refine ⟨?_, ?_, ?_, ?_, ?_, ?_, ?_, ?_, ?_, ?_⟩
  · intro xs; simp [search_users, pyIter]
  · intro v hv; cases v <;> simp_all [mapUser, PyVal.isDict]
  · intro kvs; rfl
  · intro kvs h
    simp [rowField, userRowOf, dGet, dGetD, List.find?, h]
  · intro kvs; rfl
  · intro kvs h
    simp [rowField, courseRowOf, dGet, dGetD, List.find?, h]
  · intro v hv; cases v <;> simp_all [mapCourse, PyVal.isDict]
  · intro X v hv; cases v <;> simp_all [studentRow, PyVal.isDict]
  · intro Y v hv; cases v <;> simp_all [enrolmentRow, PyVal.isDict]
  · intro xs m h; simp [get_recorded_webinars, webinarsTry, pyIter, h]

/-- C1 witness: a dict item with no keys maps to a record whose fields are
all explicit `None`, and a non-dict item makes the enrolment row function
raise. -/
theorem mapping_absent_keys_amended_witness :
    rowField (userRowOf []) "email" = PyVal.none ∧
    studentRow 1 (.int 3) = .error "AttributeError: no attribute get" ∧
    get_recorded_webinars (.success (.list [.int 7])) =
      [errorMarker "AttributeError: no attribute get"] := by
  obtain ⟨-, -, -, h4, -, -, -, h8, -, h10⟩ := mapping_absent_keys_amended
  exact ⟨h4 [] rfl, h8 1 (.int 3) rfl, h10 [.int 7] _ rfl⟩

/-- C2 counterexample: the claim says every operation except
`get_recorded_webinars` returns its documented empty value on a malformed
(non-list) body and never propagates an exception; but `search_users` on
the parsed body `42` raises an uncaught `TypeError` from iterating a
non-iterable. -/
theorem searchUsers_raises_on_non_list_body :
    search_users (.success (.int 42)) =
      .error "TypeError: object is not iterable" := rfl

/-- C2 (amended): every operation except `get_recorded_webinars` returns
its documented empty/default value on every transport failure; on a parsed
body that is neither a list nor a dict, the dual-shape operations
(`search_courses`, `get_student_enrollments`, `get_course_enrolments`) also
return their documented default; but `search_users` and `get_courses`
propagate an uncaught exception on some malformed bodies, and
`get_course_instance` returns a malformed body unmodified. -/
theorem default_on_transport_and_scalar_body :
    (∀ m, search_users (.transportError m) = .ok []) ∧
    (∀ m, get_courses (.transportError m) = .ok []) ∧
    (∀ m, get_course_instance (.transportError m) = .list []) ∧
    (∀ m, search_courses (.transportError m) = .list []) ∧
    (∀ m (X : Int), get_student_enrollments X (.transportError m) =
        .ok ⟨false, []⟩) ∧
    (∀ m (Y : Int), get_course_enrolments Y (.transportError m) = .ok []) ∧
    (∀ body, isScalar body = true → search_courses (.success body) = .list []) ∧
    (∀ body (X : Int), isScalar body = true →
        get_student_enrollments X (.success body) = .ok ⟨false, []⟩) ∧
    (∀ body (Y : Int), isScalar body = true →
        get_course_enrolments Y (.success body) = .ok []) := by
  refine ⟨fun _ => rfl, fun _ => rfl, fun _ => rfl, fun _ => rfl,
    fun _ _ => rfl, fun _ _ => rfl, ?_, ?_, ?_⟩
  · intro body hb; cases body <;> simp_all [isScalar, search_courses]
  · intro body X hb
    cases body <;> first | rfl | simp_all [isScalar]
  · intro body Y hb
    cases body <;> first | rfl | simp_all [isScalar]

/-- C2 witness: a transport failure and a scalar body both yield the
documented defaults. -/
theorem default_on_transport_and_scalar_body_witness :
    get_student_enrollments 9 (.transportError "timeout") = .ok ⟨false, []⟩ ∧
    search_courses (.success (.int 7)) = .list [] ∧
    get_course_enrolments 3 (.success (.str "oops")) = .ok [] := by
  obtain ⟨-, -, -, -, h5, -, h7, -, h9⟩ := default_on_transport_and_scalar_body
  exact ⟨h5 "timeout" 9, h7 (.int 7) rfl, h9 (.str "oops") 3 rfl⟩

/-- C3 counterexample: the claim says a row whose id fails integer coercion
is treated as non-matching and never makes the operation raise; but a row
with the non-numeric id `"abc"` makes `get_student_enrollments` raise an
uncaught `ValueError` from `int("abc")` (only `requests.RequestException`
is caught). -/
theorem studentEnrollments_raises_on_uncoercible_id :
    get_student_enrollments 1
        (.success (.list [.dict [("CONTACTID", .str "abc")]])) =
      .error "ValueError: invalid literal for int(): abc" := rfl

/-- C3 (amended): in both enrolment operations a row whose id key is
*absent* is treated as non-matching through the `-1` default (so it is
excluded whenever the requested id is not `-1`); but a row whose id value
is present and fails `int()` coercion raises an exception that the
operation propagates instead of excluding the row. -/
theorem id_coercion_missing_vs_bad :
    (∀ (X : Int) (kvs : List (String × PyVal)),
        kvs.find? (fun p => p.1 == "CONTACTID") = Option.none → X ≠ -1 →
        studentRow X (.dict kvs) = .ok Option.none) ∧
    (∀ (X : Int) (kvs : List (String × PyVal)) (m : String),
        pyInt (dGetD kvs "CONTACTID" (.int (-1))) = .error m →
        studentRow X (.dict kvs) = .error m) ∧
    (∀ (Y : Int) (kvs : List (String × PyVal)),
        kvs.find? (fun p => p.1 == "INSTANCEID") = Option.none → Y ≠ -1 →
        enrolmentRow Y (.dict kvs) = .ok Option.none) ∧
    (∀ (Y : Int) (kvs : List (String × PyVal)) (m : String),
        pyInt (dGetD kvs "INSTANCEID" (.int (-1))) = .error m →
        enrolmentRow Y (.dict kvs) = .error m) ∧
    (∀ (X : Int) (xs : List PyVal) (m : String),
        filterLoop (studentRow X) xs = .error m →
        get_student_enrollments X (.success (.list xs)) = .error m) ∧
    (∀ (Y : Int) (xs : List PyVal) (m : String),
        filterLoop (enrolmentRow Y) xs = .error m →
        get_course_enrolments Y (.success (.list xs)) = .error m) := by
  refine ⟨?_, ?_, ?_, ?_, ?_, ?_⟩
  · intro X kvs h hX
    have hX2 : ¬((-1 : Int) = X) := fun e => hX e.symm
    simp [studentRow, dGetD, h, pyInt, hX2]
  · intro X kvs m h; simp [studentRow, h]
  · intro Y kvs h hY
    have hY2 : ¬((-1 : Int) = Y) := fun e => hY e.symm
    simp [enrolmentRow, dGetD, h, pyInt, hY2]
  · intro Y kvs m h; simp [enrolmentRow, h]
  · intro X xs m h; simp [get_student_enrollments, enrolBody, pyIter, h]
  · intro Y xs m h; simp [get_course_enrolments, enrolBody, pyIter, h]

/-- C3 witness: a row with no id key is excluded as non-matching, while a
row with an uncoercible id value turns into a propagated error. -/
theorem id_coercion_missing_vs_bad_witness :
    studentRow 7 (.dict [("NAME", .str "x")]) = .ok Option.none ∧
    enrolmentRow 7 (.dict [("INSTANCEID", .str "abc")]) =
      .error "ValueError: invalid literal for int(): abc" ∧
    get_student_enrollments 1
        (.success (.list [.dict [("CONTACTID", .none)]])) =
      .error "TypeError: int() argument is None" := by
  obtain ⟨h1, -, -, h4, h5, -⟩ := id_coercion_missing_vs_bad
  refine ⟨h1 7 [("NAME", .str "x")] rfl (by decide), h4 7 _ _ rfl, ?_⟩
  exact h5 1 [.dict [("CONTACTID", .none)]] _ rfl

/-- A raw id value that coerces (with the `-1` default for an absent key)
to `X` satisfies the kept-row invariant `rowIdMatches`. -/
theorem dGetD_of_find_none (kvs : List (String × PyVal)) (k : String)
    (d : PyVal) (h : kvs.find? (fun p => p.1 == k) = Option.none) :
    dGetD kvs k d = d := by
  simp [dGetD, h]

theorem dGetD_of_find_some (kvs : List (String × PyVal)) (k : String)
    (d : PyVal) (p : String × PyVal)
    (h : kvs.find? (fun p => p.1 == k) = some p) :
    dGetD kvs k d = p.2 := by
  simp [dGetD, h]

theorem rowIdMatches_dGet (X : Int) (kvs : List (String × PyVal)) (k : String)
    (hp : pyInt (dGetD kvs k (.int (-1))) = .ok X) :
    rowIdMatches X (dGet kvs k) = true := by
  unfold dGet
  cases hk : kvs.find? (fun p => p.1 == k) with
  | none =>
      rw [dGetD_of_find_none kvs k _ hk] at hp
      rw [dGetD_of_find_none kvs k _ hk]
      have hX : (-1 : Int) = X := by simpa [pyInt] using hp
      simp [rowIdMatches, PyVal.isNone, ← hX]
  | some p =>
      rw [dGetD_of_find_some kvs k _ p hk] at hp
      rw [dGetD_of_find_some kvs k _ p hk]
      generalize hv : p.2 = v at hp ⊢
      cases v with
      | none => simp [pyInt] at hp
      | bool b => simp [rowIdMatches, PyVal.isNone, coercesTo, hp]
      | int n => simp [rowIdMatches, PyVal.isNone, coercesTo, hp]
      | str s => simp [rowIdMatches, PyVal.isNone, coercesTo, hp]
      | list l => simp [pyInt] at hp
      | dict d2 => simp [pyInt] at hp

/-- Inversion of a kept `get_student_enrollments` row: it came from a dict
whose `CONTACTID` coerced to the requested id. -/
theorem studentRow_ok_some (X : Int) (x row : PyVal)
    (h : studentRow X x = .ok (some row)) :
    ∃ kvs, x = .dict kvs ∧ row = studentRowOf kvs ∧
      pyInt (dGetD kvs "CONTACTID" (.int (-1))) = .ok X := by
  cases x with
  | none => simp [studentRow] at h
  | bool b => simp [studentRow] at h
  | int n => simp [studentRow] at h
  | str s => simp [studentRow] at h
  | list l => simp [studentRow] at h
  | dict kvs =>
      refine ⟨kvs, rfl, ?_⟩
      simp only [studentRow] at h
      split at h
      · simp at h
      · rename_i cid hp
        split at h
        · simp at h
        · rename_i hc
          have hcX : cid = X := by
            by_contra hne
            exact hc hne
          subst hcX
          have hrow : studentRowOf kvs = row := by simpa using h
          exact ⟨hrow.symm, hp⟩

/-- Inversion of a kept `get_course_enrolments` row: it came from a dict
whose `INSTANCEID` coerced to the requested id. -/
theorem enrolmentRow_ok_some (Y : Int) (x row : PyVal)
    (h : enrolmentRow Y x = .ok (some row)) :
    ∃ kvs, x = .dict kvs ∧ row = enrolmentRowOf kvs ∧
      pyInt (dGetD kvs "INSTANCEID" (.int (-1))) = .ok Y := by
  cases x with
  | none => simp [enrolmentRow] at h
  | bool b => simp [enrolmentRow] at h
  | int n => simp [enrolmentRow] at h
  | str s => simp [enrolmentRow] at h
  | list l => simp [enrolmentRow] at h
  | dict kvs =>
      refine ⟨kvs, rfl, ?_⟩
      simp only [enrolmentRow] at h
      split at h
      · simp at h
      · rename_i iid hp
        split at h
        · simp at h
        · rename_i hc
          have hcY : iid = Y := by
            by_contra hne
            exact hc hne
          subst hcY
          have hrow : enrolmentRowOf kvs = row := by simpa using h
          exact ⟨hrow.symm, hp⟩

/-- The learner-enrolment record's `contact_id` field is the source row's
raw `CONTACTID` value. -/
theorem rowField_studentRowOf (kvs : List (String × PyVal)) :
    rowField (studentRowOf kvs) "contact_id" = dGet kvs "CONTACTID" := rfl

/-- The roster record's `instance_id` field is the source row's raw
`INSTANCEID` value. -/
theorem rowField_enrolmentRowOf (kvs : List (String × PyVal)) :
    rowField (enrolmentRowOf kvs) "instance_id" = dGet kvs "INSTANCEID" := rfl

/-- C4 counterexample: the claim says each output row's `contact_id` equals
the requested id `X`; but for `X = 5` and the response row
`{"CONTACTID": "5"}` the row is kept (the filter compares `int()`
coercions) while its `contact_id` is the string `"5"`, not the integer 5. -/
theorem studentEnrollments_contact_id_not_equal :
    get_student_enrollments 5
        (.success (.list [.dict [("CONTACTID", .str "5")]])) =
      .ok ⟨true, [studentRowOf [("CONTACTID", .str "5")]]⟩ ∧
    rowField (studentRowOf [("CONTACTID", .str "5")]) "contact_id" =
      .str "5" ∧
    PyVal.str "5" ≠ PyVal.int 5 :=
  ⟨rfl, rfl, fun hcon => PyVal.noConfusion hcon⟩

/-- C4 (amended): every row in the `courses` output of
`get_student_enrollments(contactID = X)` has a `contact_id` that *coerces*
to X under the code's rule (`int()` of the raw value; a `None` field — an
absent key — matches exactly when X = -1), though the raw value itself need
not equal the integer X; and `enrolled` is true iff at least one row
survived the filtering. -/
theorem studentEnrollments_rows_match (X : Int) (o : HttpOutcome)
    (res : EnrolStatus) (h : get_student_enrollments X o = .ok res) :
    (∀ row ∈ res.courses, rowIdMatches X (rowField row "contact_id") = true) ∧
    (res.enrolled = true ↔ res.courses ≠ []) := by
  cases o with
  | transportError m =>
      obtain rfl : (⟨false, []⟩ : EnrolStatus) = res := by
        simpa [get_student_enrollments] using h
      simp
  | success body =>
      simp only [get_student_enrollments] at h
      split at h
      · simp at h
      · rename_i items hi
        split at h
        · simp at h
        · rename_i courses hl
          obtain rfl : (⟨decide (0 < courses.length), courses⟩ : EnrolStatus) = res := by
            simpa using h
          constructor
          · intro row hrow
            simp only at hrow
            obtain ⟨x, _, hfx⟩ := filterLoop_mem _ _ _ hl row hrow
            obtain ⟨kvs, rfl, rfl, hp⟩ := studentRow_ok_some X x row hfx
            rw [rowField_studentRowOf]
            exact rowIdMatches_dGet X kvs "CONTACTID" hp
          · simp [List.length_pos]

/-- C4 witness: a matching row is kept and satisfies the coercion-level id
invariant. -/
theorem studentEnrollments_rows_match_witness :
    rowIdMatches 5 (rowField (studentRowOf [("CONTACTID", .int 5)])
      "contact_id") = true := by
  have h := studentEnrollments_rows_match 5
    (.success (.list [.dict [("CONTACTID", .int 5)]]))
    ⟨true, [studentRowOf [("CONTACTID", .int 5)]]⟩ rfl
  exact h.1 _ (List.mem_singleton.mpr rfl)

/-- C5 counterexample: the claim says each output row's `instance_id`
equals the requested id `Y`; but for `Y = 7` and the response row
`{"INSTANCEID": "7"}` the row is kept while its `instance_id` is the
string `"7"`, not the integer 7. -/
theorem courseEnrolments_instance_id_not_equal :
    get_course_enrolments 7
        (.success (.list [.dict [("INSTANCEID", .str "7")]])) =
      .ok [enrolmentRowOf [("INSTANCEID", .str "7")]] ∧
    rowField (enrolmentRowOf [("INSTANCEID", .str "7")]) "instance_id" =
      .str "7" ∧
    PyVal.str "7" ≠ PyVal.int 7 :=
  ⟨rfl, rfl, fun hcon => PyVal.noConfusion hcon⟩

/-- C5 (amended): every row in the output of
`get_course_enrolments(instanceID = Y)` has an `instance_id` that coerces
to Y under the code's rule (`int()` of the raw value; a `None` field — an
absent key — matches exactly when Y = -1), though the raw value itself
need not equal the integer Y. -/
theorem courseEnrolments_rows_match (Y : Int) (o : HttpOutcome)
    (rows : List PyVal) (h : get_course_enrolments Y o = .ok rows) :
    ∀ row ∈ rows, rowIdMatches Y (rowField row "instance_id") = true := by
  cases o with
  | transportError m =>
      obtain rfl : ([] : List PyVal) = rows := by
        simpa [get_course_enrolments] using h
      simp
  | success body =>
      simp only [get_course_enrolments] at h
      split at h
      · simp at h
      · rename_i items hi
        intro row hrow
        obtain ⟨x, _, hfx⟩ := filterLoop_mem _ _ _ h row hrow
        obtain ⟨kvs, rfl, rfl, hp⟩ := enrolmentRow_ok_some Y x row hfx
        rw [rowField_enrolmentRowOf]
        exact rowIdMatches_dGet Y kvs "INSTANCEID" hp

/-- C5 witness: a matching roster row is kept and satisfies the
coercion-level id invariant. -/
theorem courseEnrolments_rows_match_witness :
    rowIdMatches 7 (rowField (enrolmentRowOf [("INSTANCEID", .int 7)])
      "instance_id") = true := by
  have h := courseEnrolments_rows_match 7
    (.success (.list [.dict [("INSTANCEID", .int 7)]]))
    [enrolmentRowOf [("INSTANCEID", .int 7)]] rfl
  exact h _ (List.mem_singleton.mpr rfl)

/-- C10 counterexample: the claim says each output row of every mapping
operation is derived from exactly one response item; but on the response
list `[1]` the per-item mapping of `get_recorded_webinars` derives no row
from any item, while the method still outputs one row — the error marker,
derived from no response item. -/
theorem recordedWebinars_marker_not_from_item :
    get_recorded_webinars (.success (.list [.int 1])) =
      [errorMarker "AttributeError: no attribute get"] ∧
    [PyVal.int 1].filterMap (fun x => (mapCourse x).toOption) = [] ∧
    [errorMarker "AttributeError: no attribute get"] ≠ ([] : List PyVal) :=
  ⟨rfl, rfl, fun hcon => List.noConfusion hcon⟩

/-- C10 (amended): on every run where an operation completes its mapping,
the output is a `filterMap` of the response list — rows keep the relative
order of their source items, each row is derived from exactly one item,
and the output length never exceeds the response length; but on a run
where the mapping inside `get_recorded_webinars` raises (a non-dict
response item), its single output row is the error marker, derived from no
response item — the length bound still holds there, since such a failure
requires a nonempty response list. -/
theorem mapping_order_provenance_amended :
    (∀ xs : List PyVal,
        search_users (.success (.list xs)) = .ok (xs.filterMap mapUser) ∧
        (xs.filterMap mapUser).length ≤ xs.length) ∧
    (∀ (xs rows : List PyVal), get_courses (.success (.list xs)) = .ok rows →
        rows = xs.filterMap (fun x => (mapCourse x).toOption) ∧
        rows.length ≤ xs.length) ∧
    (∀ (xs rows : List PyVal), webinarsTry (.success (.list xs)) = .ok rows →
        get_recorded_webinars (.success (.list xs)) = rows ∧
        rows = xs.filterMap (fun x => (mapCourse x).toOption) ∧
        rows.length ≤ xs.length) ∧
    (∀ (X : Int) (xs : List PyVal) (res : EnrolStatus),
        get_student_enrollments X (.success (.list xs)) = .ok res →
        res.courses = xs.filterMap (fun x => ((studentRow X x).toOption).join) ∧
        res.courses.length ≤ xs.length) ∧
    (∀ (Y : Int) (xs rows : List PyVal),
        get_course_enrolments Y (.success (.list xs)) = .ok rows →
        rows = xs.filterMap (fun x => ((enrolmentRow Y x).toOption).join) ∧
        rows.length ≤ xs.length) ∧
    (∀ (xs : List PyVal) (m : String),
        webinarsTry (.success (.list xs)) = .error m →
        get_recorded_webinars (.success (.list xs)) = [errorMarker m] ∧
        xs ≠ [] ∧
        (get_recorded_webinars (.success (.list xs))).length ≤ xs.length) := by
  refine ⟨?_, ?_, ?_, ?_, ?_, ?_⟩
  · intro xs
    exact ⟨by simp [search_users, pyIter], List.length_filterMap_le _ _⟩
  · intro xs rows h
    simp only [get_courses, pyIter] at h
    obtain rfl := mapLoop_ok mapCourse xs rows h
    exact ⟨rfl, List.length_filterMap_le _ _⟩
  · intro xs rows h
    refine ⟨by simp [get_recorded_webinars, h], ?_⟩
    simp only [webinarsTry, pyIter] at h
    obtain rfl := mapLoop_ok mapCourse xs rows h
    exact ⟨rfl, List.length_filterMap_le _ _⟩
  · intro X xs res h
    simp only [get_student_enrollments, enrolBody, pyIter] at h
    split at h
    · simp at h
    · rename_i courses hl
      obtain rfl : (⟨decide (0 < courses.length), courses⟩ : EnrolStatus) = res := by
        simpa using h
      obtain rfl := filterLoop_ok (studentRow X) xs courses hl
      exact ⟨rfl, List.length_filterMap_le _ _⟩
  · intro Y xs rows h
    simp only [get_course_enrolments, enrolBody, pyIter] at h
    obtain rfl := filterLoop_ok (enrolmentRow Y) xs rows h
    exact ⟨rfl, List.length_filterMap_le _ _⟩
  · intro xs m h
    have hne : xs ≠ [] := by
      intro hnil
      subst hnil
      simp [webinarsTry, pyIter, mapLoop] at h
    refine ⟨by simp [get_recorded_webinars, h], hne, ?_⟩
    simp only [get_recorded_webinars, h]
    simpa using List.length_pos.mpr hne

/-- C10 witness: a run that completes its mapping produces exactly the
order-preserving `filterMap` of the response list, and a run whose mapping
raises produces the single marker row, still within the length bound. -/
theorem mapping_order_provenance_amended_witness :
    get_courses (.success (.list [.dict []])) =
      .ok ([.dict []].filterMap (fun x => (mapCourse x).toOption)) ∧
    ([.dict []].filterMap (fun x => (mapCourse x).toOption)).length ≤ 1 ∧
    get_recorded_webinars (.success (.list [.int 1, .int 2])) =
      [errorMarker "AttributeError: no attribute get"] ∧
    (get_recorded_webinars (.success (.list [.int 1, .int 2]))).length ≤ 2 := by
  have h := mapping_order_provenance_amended.2.1 [.dict []] [courseRowOf []] rfl
  have h6 := mapping_order_provenance_amended.2.2.2.2.2
    [.int 1, .int 2] "AttributeError: no attribute get" rfl
  exact ⟨by rw [← h.1]; rfl, h.2, h6.1, h6.2.2⟩

/-- C9: for each of the six date/time filter parameters of
`search_courses`, a provided value appears in the outgoing request as its
ISO-8601 `isoformat` string, and an omitted one is absent from the outgoing
request altogether (its `None` entry is dropped by `requests`), whatever
the other twenty-two arguments are. -/
theorem searchCourses_date_params
    (id instance_id : Option Int)
    (type training_category location state code name search_term : Option String)
    (enrolment_open : Option Bool)
    (startDate_min startDate_max finishDate_min finishDate_max : Option PyDate)
    (lastUpdated_min lastUpdated_max : Option PyDateTime)
    (offset display_length : Option Int)
    (sort_column sort_direction : Option String)
    (public isActive : Option Bool) (status : Option String)
    (ps : List (String × PyVal))
    (hps : ps = search_courses_params id instance_id type training_category
      location state code name search_term enrolment_open startDate_min
      startDate_max finishDate_min finishDate_max lastUpdated_min
      lastUpdated_max offset display_length sort_column sort_direction
      public isActive status) :
    ((∀ d, startDate_min = some d →
        sentLookup ps "startDate_min" = some (.str d.isoformat) ∧
        isISO8601Date d.isoformat = true) ∧
     (startDate_min = Option.none →
        sentLookup ps "startDate_min" = Option.none)) ∧
    ((∀ d, startDate_max = some d →
        sentLookup ps "startDate_max" = some (.str d.isoformat) ∧
        isISO8601Date d.isoformat = true) ∧
     (startDate_max = Option.none →
        sentLookup ps "startDate_max" = Option.none)) ∧
    ((∀ d, finishDate_min = some d →
        sentLookup ps "finishDate_min" = some (.str d.isoformat) ∧
        isISO8601Date d.isoformat = true) ∧
     (finishDate_min = Option.none →
        sentLookup ps "finishDate_min" = Option.none)) ∧
    ((∀ d, finishDate_max = some d →
        sentLookup ps "finishDate_max" = some (.str d.isoformat) ∧
        isISO8601Date d.isoformat = true) ∧
     (finishDate_max = Option.none →
        sentLookup ps "finishDate_max" = Option.none)) ∧
    ((∀ t, lastUpdated_min = some t →
        sentLookup ps "lastUpdated_min" = some (.str t.isoformat) ∧
        isISO8601DateTime t.isoformat = true) ∧
     (lastUpdated_min = Option.none →
        sentLookup ps "lastUpdated_min" = Option.none)) ∧
    ((∀ t, lastUpdated_max = some t →
        sentLookup ps "lastUpdated_max" = some (.str t.isoformat) ∧
        isISO8601DateTime t.isoformat = true) ∧
     (lastUpdated_max = Option.none →
        sentLookup ps "lastUpdated_max" = Option.none)) := by
  subst hps
  refine ⟨⟨?_, ?_⟩, ⟨?_, ?_⟩, ⟨?_, ?_⟩, ⟨?_, ?_⟩, ⟨?_, ?_⟩, ⟨?_, ?_⟩⟩ <;>
    first
    | (intro d hd
       subst hd
       refine ⟨?_, by simp [isISO8601Date_isoformat, isISO8601DateTime_isoformat]⟩
       simp [search_courses_params, sentLookup_cons, sentLookup_nil,
         oDate, oDateTime, PyVal.isNone])
    | (intro h
       subst h
       simp [search_courses_params, sentLookup_cons, sentLookup_nil,
         oDate, oDateTime, PyVal.isNone])

/-- C9 witness: with only `startDate_min` and `lastUpdated_max` provided,
those two parameters are sent as ISO-8601 strings and `startDate_max` is
absent from the outgoing request. -/
theorem searchCourses_date_params_witness :
    sentLookup (search_courses_params Option.none Option.none Option.none
        Option.none Option.none Option.none Option.none Option.none
        Option.none Option.none (some ⟨2024, 1, 2⟩) Option.none Option.none
        Option.none Option.none (some ⟨2023, 12, 31, 23, 59, 6⟩) Option.none
        Option.none Option.none Option.none Option.none Option.none
        Option.none)
      "startDate_min" = some (.str "2024-01-02") ∧
    sentLookup (search_courses_params Option.none Option.none Option.none
        Option.none Option.none Option.none Option.none Option.none
        Option.none Option.none (some ⟨2024, 1, 2⟩) Option.none Option.none
        Option.none Option.none (some ⟨2023, 12, 31, 23, 59, 6⟩) Option.none
        Option.none Option.none Option.none Option.none Option.none
        Option.none)
      "startDate_max" = Option.none ∧
    sentLookup (search_courses_params Option.none Option.none Option.none
        Option.none Option.none Option.none Option.none Option.none
        Option.none Option.none (some ⟨2024, 1, 2⟩) Option.none Option.none
        Option.none Option.none (some ⟨2023, 12, 31, 23, 59, 6⟩) Option.none
        Option.none Option.none Option.none Option.none Option.none
        Option.none)
      "lastUpdated_max" = some (.str "2023-12-31T23:59:06") ∧
    isISO8601Date "2024-01-02" = true := by
  have h := searchCourses_date_params Option.none Option.none Option.none
    Option.none Option.none Option.none Option.none Option.none Option.none
    Option.none (some ⟨2024, 1, 2⟩) Option.none Option.none Option.none
    Option.none (some ⟨2023, 12, 31, 23, 59, 6⟩) Option.none Option.none
    Option.none Option.none Option.none Option.none Option.none _ rfl
  exact ⟨(h.1.1 ⟨2024, 1, 2⟩ rfl).1, h.2.1.2 rfl,
    (h.2.2.2.2.2.1 ⟨2023, 12, 31, 23, 59, 6⟩ rfl).1,
    (h.1.1 ⟨2024, 1, 2⟩ rfl).2⟩

end Axcelerate
